import Mathlib

/-!
Shallow embedding of the vehicle lifecycle and inspection engine of the
Asset-Management repository.

Sources embedded:
* `src/services/InspectionService.ts` — `validateOdometerReading`,
  `determinOverallCondition`, `createDamageReport`;
* `src/services/VehicleService.ts` — `getNextServiceInfo`;
* `src/pages/VehicleCheckin.tsx` — `handleCheckin` (guards and the
  persistence patches it issues);
* `src/pages/VehicleCheckout.tsx` — the `status !== 'available'` page guard
  together with `handleCheckout` (guards and persistence effects).

Numbers are modelled as `Int` (JavaScript numbers used as integral
readings); optional JavaScript fields become `Option`; the `x || 0`
defaulting idiom becomes `Option.getD 0` (for the value `0` both sides
agree, so the translation is exact on integral data).
-/

namespace AssetMgmt

/-- Damage severities, from the repository's damage-report type
(`"minor" | "moderate" | "major" | "critical"`). -/
inductive Severity where
  | minor
  | moderate
  | major
  | critical
deriving DecidableEq, Repr

/-- Checklist item status (`'pass' | 'fail' | 'needs_attention'`). -/
inductive ChecklistStatus where
  | pass
  | fail
  | needs_attention
deriving DecidableEq, Repr

/-- Overall vehicle condition
(`'excellent' | 'good' | 'fair' | 'poor' | 'damaged'`). -/
inductive Condition where
  | excellent
  | good
  | fair
  | poor
  | damaged
deriving DecidableEq, Repr

/-- A damage report record (`DamageReport` in `types/models`), the fields
used by the embedded functions. `severity` is an optional field in the
source (`severity?`). -/
structure DamageReport where
  id : String
  component : String
  hasDamage : Bool
  severity : Option Severity
  description : String
  photos : List String
  estimatedCost : Int
  repairRequired : Bool
deriving DecidableEq, Repr

/-- A checklist item as consumed by `determinOverallCondition`:
`{ status: 'pass' | 'fail' | 'needs_attention'; severity?: string }`. -/
structure ChecklistItem where
  status : ChecklistStatus
  severity : Option String
deriving DecidableEq, Repr

/-- `determinOverallCondition` from `src/services/InspectionService.ts`
lines 298–330, translated clause for clause. -/
def determinOverallCondition (damages : List DamageReport)
    (checklistItems : List ChecklistItem) : Condition :=
  -- Check for critical damages
  let hasCriticalDamage := damages.any fun damage => damage.severity == some .critical
  if hasCriticalDamage then .damaged else
  -- Check for major damages
  let hasMajorDamage := damages.any fun damage => damage.severity == some .major
  if hasMajorDamage then .poor else
  -- Check checklist failures
  let failedItems := checklistItems.filter fun item => item.status == .fail
  let criticalFailures := failedItems.filter fun item => item.severity == some "critical"
  if criticalFailures.length > 0 then .poor else
  if failedItems.length > 3 then .fair else
  -- Check for moderate damages
  let hasModerateNeedsAttention :=
    (damages.any fun damage => damage.severity == some .moderate) ||
      (checklistItems.any fun item => item.status == .needs_attention)
  if hasModerateNeedsAttention then .fair else
  -- Check for minor issues
  let hasMinorIssues :=
    (damages.any fun damage => damage.severity == some .minor) ||
      failedItems.length > 0
  if hasMinorIssues then .good else
  .excellent

/-- Reference definition of spec §4.2 `assessCondition`, written from the
spec's seven rules in strict priority order (first matching rule wins). -/
def assessCondition (damages : List DamageReport)
    (checklistItems : List ChecklistItem) : Condition :=
  if damages.any fun d => d.severity == some .critical then .damaged
  else if damages.any fun d => d.severity == some .major then .poor
  else if checklistItems.any fun i =>
      i.status == .fail && i.severity == some "critical" then .poor
  else if (checklistItems.countP fun i => i.status == .fail) > 3 then .fair
  else if (damages.any fun d => d.severity == some .moderate) ||
      (checklistItems.any fun i => i.status == .needs_attention) then .fair
  else if (damages.any fun d => d.severity == some .minor) ||
      (checklistItems.countP fun i => i.status == .fail) > 0 then .good
  else .excellent

/-- Result record of `validateOdometerReading`:
`{ isValid: boolean; errors: string[]; warnings: string[] }`. -/
structure OdometerValidation where
  isValid : Bool
  errors : List String
  warnings : List String
deriving DecidableEq, Repr

/-- The vehicle document as read by `validateOdometerReading`; only the
`currentOdometer` field is consulted, and it may be absent
(`vehicleData.currentOdometer || 0`). -/
structure VehicleDoc where
  currentOdometer : Option Int
deriving DecidableEq, Repr

/-- `validateOdometerReading` from `src/services/InspectionService.ts`
lines 248–293. The Firestore lookup is modelled by passing the fetched
document (`none` when the vehicle does not exist). -/
def validateOdometerReading (vehicle : Option VehicleDoc)
    (newReading : Int) : OdometerValidation :=
  match vehicle with
  | none => { isValid := false, errors := ["Vehicle not found"], warnings := [] }
  | some vehicleData =>
    let currentOdometer := vehicleData.currentOdometer.getD 0
    -- Check if new reading is lower than current (invalid)
    let errors :=
      if newReading < currentOdometer then
        [s!"Reading cannot be lower than current reading ({currentOdometer} km)"]
      else []
    -- Check for unusually high increase (warning)
    let difference := newReading - currentOdometer
    let warnings :=
      if difference > 1000 then
        [s!"Unusually high mileage increase detected ({difference} km)"]
      else []
    { isValid := errors.length == 0, errors := errors, warnings := warnings }

/-- `createDamageReport` from `src/services/InspectionService.ts` lines
335–354. The generated id (`Date.now()` plus randomness) and timestamp are
injected as a parameter to keep the function pure. -/
def createDamageReport (generatedId : String) (component : String)
    (hasDamage : Bool) (severity : Option Severity)
    (description : Option String) (photos : Option (List String)) :
    DamageReport :=
  { id := generatedId
    component := component
    hasDamage := hasDamage
    severity := severity
    description := description.getD ""
    photos := photos.getD []
    estimatedCost := 0
    repairRequired :=
      hasDamage && (severity == some .major || severity == some .critical) }

/-- Vehicle status enum from the repository's `Vehicle` interface:
`'available' | 'in_use' | 'maintenance' | 'out_of_service'`. -/
inductive VehicleStatus where
  | available
  | in_use
  | maintenance
  | out_of_service
deriving DecidableEq, Repr

/-- The vehicle fields consulted and updated by checkout, checkin and
`getNextServiceInfo`. -/
structure Vehicle where
  status : VehicleStatus
  currentDriverId : String
  currentMileage : Int
  fuelLevel : Int
  nextServiceOdometer : Int
  currentOdometer : Int
deriving DecidableEq, Repr

/-- Result record of `getNextServiceInfo`. -/
structure NextServiceInfo where
  kmUntilService : Int
  isOverdue : Bool
  daysUntilService : Int
deriving DecidableEq, Repr

/-- `getNextServiceInfo` from `src/services/VehicleService.ts` lines
301–318. `Math.ceil(kmUntilService / avgDailyKm)` on integral readings is
the rational ceiling. -/
def getNextServiceInfo (vehicle : Vehicle) : NextServiceInfo :=
  let kmUntilService := vehicle.nextServiceOdometer - vehicle.currentOdometer
  let isOverdue := kmUntilService ≤ 0
  -- Estimate days until service based on average daily usage (rough estimate)
  let avgDailyKm : Int := 50
  let daysUntilService :=
    if isOverdue then 0 else ⌈(kmUntilService : ℚ) / (avgDailyKm : ℚ)⌉
  { kmUntilService := kmUntilService
    isOverdue := isOverdue
    daysUntilService := daysUntilService }

/-- Checkout form state as read by `handleCheckout` in
`src/pages/VehicleCheckout.tsx`. String fields are empty when unfilled;
numeric inputs are carried as the parsed integers. -/
structure CheckoutForm where
  selectedDriverId : String
  startingMileage : Option Int
  fuelLevel : Int
  destination : String
  tripPurpose : String
  signature : String
deriving DecidableEq, Repr

/-- The assignment record created by `handleCheckout` (the fields with
lifecycle content). -/
structure AssignmentRecord where
  driverId : String
  startingMileage : Int
  fuelLevelStart : Int
  destination : String
  tripPurpose : String
  status : String
deriving DecidableEq, Repr

/-- The vehicle patch issued on a successful checkout. -/
structure CheckoutVehiclePatch where
  status : VehicleStatus
  currentDriverId : String
  currentMileage : Int
  fuelLevel : Int
deriving DecidableEq, Repr

/-- Outcome of a checkout attempt: the page-level guard
(`vehicle.status !== 'available'`) refuses before the form is reachable;
`handleCheckout` refuses on missing fields or missing signature; otherwise
an assignment is created and the vehicle patched. Only `success` carries
effects. -/
inductive CheckoutResult where
  | notAvailable
  | missingFields
  | missingSignature
  | success (assignment : AssignmentRecord) (vehiclePatch : CheckoutVehiclePatch)
deriving DecidableEq, Repr

/-- The checkout operation of `src/pages/VehicleCheckout.tsx`: the
component guard at lines 132–147 composed with `handleCheckout` at lines
60–109. -/
def vehicleCheckout (vehicle : Vehicle) (form : CheckoutForm) :
    CheckoutResult :=
  if vehicle.status != .available then .notAvailable
  else if form.selectedDriverId == "" || form.startingMileage == none ||
      form.destination == "" || form.tripPurpose == "" then .missingFields
  else if form.signature == "" then .missingSignature
  else
    .success
      { driverId := form.selectedDriverId
        startingMileage := form.startingMileage.getD 0
        fuelLevelStart := form.fuelLevel
        destination := form.destination
        tripPurpose := form.tripPurpose
        status := "active" }
      { status := .in_use
        currentDriverId := form.selectedDriverId
        currentMileage := form.startingMileage.getD 0
        fuelLevel := form.fuelLevel }

/-- The active assignment loaded by the checkin page; `startingMileage` is
an optional field (`currentAssignment?.startingMileage || 0`). -/
structure ActiveAssignment where
  driverId : String
  startingMileage : Option Int
deriving DecidableEq, Repr

/-- Checkin form state as read by `handleCheckin` in
`src/pages/VehicleCheckin.tsx`. `endingMileage` is `none` when the input
is empty (the `!endingMileage` guard). -/
structure CheckinForm where
  endingMileage : Option Int
  fuelLevel : Int
  damageReported : Bool
  damageDescription : String
  signature : String
deriving DecidableEq, Repr

/-- The assignment patch issued on a successful checkin (lines 79–91). -/
structure AssignmentPatch where
  endingMileage : Int
  fuelLevelEnd : Int
  damageReported : Bool
  status : String
  totalMileage : Int
deriving DecidableEq, Repr

/-- The vehicle patch issued on a successful checkin (lines 95–101). -/
structure CheckinVehiclePatch where
  status : VehicleStatus
  currentDriverId : String
  currentMileage : Int
  fuelLevel : Int
deriving DecidableEq, Repr

/-- Outcome of a checkin attempt. On success: the patch applied to the
active assignment when one exists, always a vehicle patch, and whether a
post-trip inspection record is created (`if (damageReported)`). -/
inductive CheckinResult where
  | missingFields
  | mileageError
  | success (assignmentPatch : Option AssignmentPatch)
      (vehiclePatch : CheckinVehiclePatch) (inspectionCreated : Bool)
deriving DecidableEq, Repr

/-- `handleCheckin` from `src/pages/VehicleCheckin.tsx` lines 61–127,
guards and persistence effects. -/
def handleCheckin (currentAssignment : Option ActiveAssignment)
    (form : CheckinForm) : CheckinResult :=
  if form.endingMileage == none || form.signature == "" then .missingFields
  else
    let endMileage := form.endingMileage.getD 0
    let startMileage := (currentAssignment.bind (·.startingMileage)).getD 0
    if endMileage < startMileage then .mileageError
    else
      .success
        (currentAssignment.map fun _ =>
          { endingMileage := endMileage
            fuelLevelEnd := form.fuelLevel
            damageReported := form.damageReported
            status := "completed"
            totalMileage := endMileage - startMileage })
        { status := .available
          currentDriverId := ""
          currentMileage := endMileage
          fuelLevel := form.fuelLevel }
        form.damageReported

/-! ### Helper lemmas -/

lemma length_filter_pos_iff_any {α : Type} (l : List α) (r : α → Bool) :
    0 < (l.filter r).length ↔ l.any r = true := by
  induction l with
  | nil => simp
  | cons a t ih =>
    by_cases h : r a = true
    · simp [List.filter_cons, h]
    · simp [List.filter_cons, h, ih]

lemma filter_filter_length_pos (c : List ChecklistItem) :
    0 < ((c.filter fun item => item.status == .fail).filter
        fun item => item.severity == some "critical").length ↔
      (c.any fun i => i.status == .fail && i.severity == some "critical") = true := by
  rw [List.filter_filter, length_filter_pos_iff_any]
  simp only [List.any_eq_true]
  constructor <;> rintro ⟨x, hx, hp⟩ <;> refine ⟨x, hx, ?_⟩ <;>
    revert hp <;>
    cases hs : x.status == ChecklistStatus.fail <;>
    cases hc : x.severity == some "critical" <;> simp

/-! ### Claims -/

/-- C1: `determinOverallCondition` equals the reference `assessCondition`
of spec §4.2 on every input, evaluated in strict priority order; in
particular any damage list containing both a critical and a minor severity
yields `damaged`, and empty damages with empty checklist yield
`excellent`. -/
theorem determinOverallCondition_matches_spec (d : List DamageReport)
    (c : List ChecklistItem) :
    determinOverallCondition d c = assessCondition d c ∧
    ((d.any fun x => x.severity == some .critical) = true →
      (d.any fun x => x.severity == some .minor) = true →
      determinOverallCondition d c = .damaged) ∧
    (d = [] → c = [] → determinOverallCondition d c = .excellent) := by
  refine ⟨?_, ?_, ?_⟩
  · unfold determinOverallCondition assessCondition
    simp only [List.countP_eq_length_filter, filter_filter_length_pos]
  · intro hcrit _
    unfold determinOverallCondition
    simp only [hcrit, if_true]
  · rintro rfl rfl
    rfl

/-- A damage report with critical severity, for evaluating C1. -/
def exCriticalDamage : DamageReport :=
  { id := "d1", component := "body", hasDamage := true
    severity := some .critical, description := "", photos := []
    estimatedCost := 0, repairRequired := true }

/-- A damage report with minor severity, for evaluating C1. -/
def exMinorDamage : DamageReport :=
  { id := "d2", component := "mirror", hasDamage := true
    severity := some .minor, description := "", photos := []
    estimatedCost := 0, repairRequired := false }

/-- C1 witness: the assessor evaluated at concrete inputs — a critical
plus minor damage list yields `damaged`, and empty inputs yield
`excellent`. -/
theorem determinOverallCondition_matches_spec_witness :
    determinOverallCondition [exCriticalDamage, exMinorDamage] [] =
        .damaged ∧
      determinOverallCondition [] [] = .excellent :=
  ⟨(determinOverallCondition_matches_spec [exCriticalDamage, exMinorDamage]
      []).2.1 (by decide) (by decide),
    (determinOverallCondition_matches_spec [] []).2.2 rfl rfl⟩

/-- C2 counterexample: at `previousReading = 0` and `newReading = 1000`
(so `newReading ≥ previousReading + 1000`), the validator returns an empty
warnings list — the warning fires only for a strictly larger increase. -/
theorem validateOdometer_warning_boundary_cex :
    (1000 : Int) ≥ 0 + 1000 ∧
    (validateOdometerReading (some ⟨some 0⟩) 1000).warnings = [] ∧
    (validateOdometerReading (some ⟨some 0⟩) 1000).isValid = true := by
  refine ⟨by norm_num, ?_, ?_⟩ <;> rfl

/-- C2 (amended): for every existing vehicle with current odometer
`prev` and every `new > prev + 1000` (the increase strictly exceeds 1000),
the validator returns a non-empty warnings list while `isValid` stays
`true`. -/
theorem validateOdometer_strict_warning (prev newReading : Int)
    (h : newReading > prev + 1000) :
    (validateOdometerReading (some ⟨some prev⟩) newReading).warnings ≠ [] ∧
    (validateOdometerReading (some ⟨some prev⟩) newReading).isValid =
      true := by
  have hlt : ¬ newReading < prev := by omega
  have hgt : newReading - prev > 1000 := by omega
  simp [validateOdometerReading, hlt, hgt]

/-- C2 witness: the amended theorem evaluated at `prev = 0`,
`newReading = 1001`. -/
theorem validateOdometer_strict_warning_witness :
    (validateOdometerReading (some ⟨some 0⟩) 1001).warnings ≠ [] ∧
    (validateOdometerReading (some ⟨some 0⟩) 1001).isValid = true :=
  validateOdometer_strict_warning 0 1001 (by norm_num)

/-- C5: for every current reading and every strictly lower new reading,
the validator reports exactly the lower-than-current error, `isValid` is
`false`, and no warning is produced — never a warning-only success. -/
theorem validateOdometer_lower_reading_error (cur newReading : Int)
    (h : newReading < cur) :
    (validateOdometerReading (some ⟨some cur⟩) newReading).isValid =
        false ∧
      (validateOdometerReading (some ⟨some cur⟩) newReading).errors =
        [s!"Reading cannot be lower than current reading ({cur} km)"] ∧
      (validateOdometerReading (some ⟨some cur⟩) newReading).warnings =
        [] := by
  have hw : ¬ newReading - cur > 1000 := by omega
  simp [validateOdometerReading, h, hw]

/-- C5 witness: the validator evaluated at current reading 5 and new
reading 3. -/
theorem validateOdometer_lower_reading_error_witness :
    (validateOdometerReading (some ⟨some 5⟩) 3).isValid = false ∧
      (validateOdometerReading (some ⟨some 5⟩) 3).errors =
        ["Reading cannot be lower than current reading (5 km)"] ∧
      (validateOdometerReading (some ⟨some 5⟩) 3).warnings = [] :=
  validateOdometer_lower_reading_error 5 3 (by norm_num)

/-- C9: on every input the validator never returns both a non-empty
errors list and a non-empty warnings list — at least one of the two is
empty. -/
theorem validateOdometer_error_warning_exclusive (v : Option VehicleDoc)
    (newReading : Int) :
    (validateOdometerReading v newReading).errors = [] ∨
      (validateOdometerReading v newReading).warnings = [] := by
  match v with
  | none => exact Or.inr rfl
  | some d =>
    by_cases h : newReading < d.currentOdometer.getD 0
    · refine Or.inr ?_
      have hw : ¬ newReading - d.currentOdometer.getD 0 > 1000 := by omega
      simp [validateOdometerReading, h, hw]
    · refine Or.inl ?_
      simp [validateOdometerReading, h]

/-- C10: `repairRequired` on the report built by `createDamageReport` is
exactly `hasDamage && (severity = major ∨ severity = critical)`; in
particular it is `false` when `hasDamage` is false, when severity is
absent, and for minor or moderate severities. -/
theorem createDamageReport_repairRequired (gid comp : String) (h : Bool)
    (s : Option Severity) (descr : Option String)
    (ph : Option (List String)) :
    (createDamageReport gid comp h s descr ph).repairRequired =
        (h && (s == some .major || s == some .critical)) ∧
      (createDamageReport gid comp false s descr ph).repairRequired =
        false ∧
      (createDamageReport gid comp h none descr ph).repairRequired =
        false ∧
      (createDamageReport gid comp h (some .minor) descr
          ph).repairRequired = false ∧
      (createDamageReport gid comp h (some .moderate) descr
          ph).repairRequired = false := by
  refine ⟨rfl, rfl, ?_, ?_, ?_⟩ <;> cases h <;> rfl

/-- C3 counterexample: a successful checkin reporting damage described as
critical still patches the vehicle to status `available` — there is no
`requires_attention` branch (the vehicle status enum does not even contain
such a value). -/
theorem handleCheckin_status_cex :
    handleCheckin (some ⟨"driver-1", some 100⟩)
        ⟨some 150, 40, true, "critical damage to engine", "sig"⟩ =
      .success (some ⟨150, 40, true, "completed", 50⟩)
        ⟨.available, "", 150, 40⟩ true := by
  decide

/-- C3 (amended): on every successful checkin the vehicle patch sets
status to `available` unconditionally (damage reported or not), clears the
current driver reference, and updates current mileage and fuel level to
the checkin values; a post-trip inspection record is created exactly when
damage was reported. -/
theorem handleCheckin_vehicle_patch (ca : Option ActiveAssignment)
    (f : CheckinForm) (ap : Option AssignmentPatch)
    (vp : CheckinVehiclePatch) (insp : Bool)
    (h : handleCheckin ca f = .success ap vp insp) :
    vp.status = .available ∧ vp.currentDriverId = "" ∧
      vp.currentMileage = f.endingMileage.getD 0 ∧
      vp.fuelLevel = f.fuelLevel ∧ insp = f.damageReported := by
  unfold handleCheckin at h
  split at h
  · exact absurd h (by simp)
  · dsimp only at h
    split at h
    · exact absurd h (by simp)
    · simp only [CheckinResult.success.injEq] at h
      obtain ⟨-, h2, h3⟩ := h
      subst h2 h3
      exact ⟨rfl, rfl, rfl, rfl, rfl⟩

/-- C3 witness: the amended theorem applied to a concrete successful
checkin (ending mileage 5, fuel 10, no damage). -/
theorem handleCheckin_vehicle_patch_witness :
    (⟨.available, "", 5, 10⟩ : CheckinVehiclePatch).status = .available ∧
      (⟨.available, "", 5, 10⟩ : CheckinVehiclePatch).currentDriverId =
        "" ∧
      (⟨.available, "", 5, 10⟩ : CheckinVehiclePatch).currentMileage =
        5 ∧
      (⟨.available, "", 5, 10⟩ : CheckinVehiclePatch).fuelLevel = 10 ∧
      false = false :=
  handleCheckin_vehicle_patch (some ⟨"driver-1", some 0⟩)
    ⟨some 5, 10, false, "", "sig"⟩ (some ⟨5, 10, false, "completed", 5⟩)
    ⟨.available, "", 5, 10⟩ false (by decide)

/-- A vehicle whose service is overdue (current odometer 15000 past a next
service due at 10000) and whose stored status is `available`. -/
def exOverdueVehicle : Vehicle :=
  { status := .available, currentDriverId := "", currentMileage := 15000
    fuelLevel := 80, nextServiceOdometer := 10000
    currentOdometer := 15000 }

/-- A fully filled, valid checkout form. -/
def exCheckoutForm : CheckoutForm :=
  { selectedDriverId := "driver-1", startingMileage := some 15000
    fuelLevel := 80, destination := "Depot", tripPurpose := "Delivery"
    signature := "driver-1" }

/-- C4: the checkout code never consults the service-interval status — for
a vehicle that `getNextServiceInfo` reports as overdue but whose stored
status is `available`, checkout with valid fields succeeds (creates an
active assignment and flips the vehicle to `in_use`) instead of failing
with a `ServiceOverdueError`. -/
theorem vehicleCheckout_ignores_overdue :
    (getNextServiceInfo exOverdueVehicle).isOverdue = true ∧
      vehicleCheckout exOverdueVehicle exCheckoutForm =
        .success
          ⟨"driver-1", 15000, 80, "Depot", "Delivery", "active"⟩
          ⟨.in_use, "driver-1", 15000, 80⟩ := by
  exact ⟨by decide, by decide⟩

/-- C7: checkout on a vehicle whose status is not `available` always
yields the not-available precondition failure, regardless of the form's
fields; in particular no assignment is created and no vehicle patch is
issued (only `success` carries effects). -/
theorem vehicleCheckout_not_available (v : Vehicle) (f : CheckoutForm)
    (h : v.status ≠ .available) :
    vehicleCheckout v f = .notAvailable ∧
      ∀ (a : AssignmentRecord) (p : CheckoutVehiclePatch),
        vehicleCheckout v f ≠ .success a p := by
  have hb : (v.status != .available) = true := by
    simp [bne_iff_ne, h]
  have hres : vehicleCheckout v f = .notAvailable := by
    unfold vehicleCheckout
    simp [hb]
  exact ⟨hres, fun a p hc => by rw [hres] at hc; exact absurd hc (by simp)⟩

/-- C7 witness: a concrete `in_use` vehicle with a fully valid form is
refused. -/
theorem vehicleCheckout_not_available_witness :
    vehicleCheckout
        ⟨.in_use, "driver-2", 100, 50, 10000, 100⟩ exCheckoutForm =
        .notAvailable ∧
      ∀ (a : AssignmentRecord) (p : CheckoutVehiclePatch),
        vehicleCheckout ⟨.in_use, "driver-2", 100, 50, 10000, 100⟩
          exCheckoutForm ≠ .success a p :=
  vehicleCheckout_not_available _ _ (by decide)

/-- C6: for a checkin against an active assignment with starting mileage
`s` and a filled, signed form with ending mileage `e`: `e = s` is accepted
(zero-distance trip), `e < s` is rejected with the mileage error, and any
accepted checkin closes the assignment with status `"completed"` and
recorded total mileage `e - s`. -/
theorem handleCheckin_odometer_rule (a : ActiveAssignment) (s e : Int)
    (f : CheckinForm) (hs : a.startingMileage = some s)
    (hm : f.endingMileage = some e) (hsig : f.signature ≠ "") :
    (e = s →
      handleCheckin (some a) f =
        .success
          (some ⟨s, f.fuelLevel, f.damageReported, "completed", s - s⟩)
          ⟨.available, "", s, f.fuelLevel⟩ f.damageReported) ∧
    (e < s → handleCheckin (some a) f = .mileageError) ∧
    (s ≤ e →
      handleCheckin (some a) f =
        .success
          (some ⟨e, f.fuelLevel, f.damageReported, "completed", e - s⟩)
          ⟨.available, "", e, f.fuelLevel⟩ f.damageReported) := by
  refine ⟨?_, ?_, ?_⟩
  · rintro rfl
    simp [handleCheckin, hm, hs, hsig, lt_irrefl]
  · intro hlt
    simp [handleCheckin, hm, hs, hsig, hlt]
  · intro hle
    have hnlt : ¬ e < s := not_lt.mpr hle
    simp [handleCheckin, hm, hs, hsig, hnlt]

/-- C6 witness: equal mileage (100 → 100) is accepted with total mileage
`100 - 100`, and one unit less (100 → 99) is rejected. -/
theorem handleCheckin_odometer_rule_witness :
    handleCheckin (some ⟨"driver-1", some 100⟩)
        ⟨some 100, 50, false, "", "sig"⟩ =
      .success (some ⟨100, 50, false, "completed", 100 - 100⟩)
        ⟨.available, "", 100, 50⟩ false ∧
    handleCheckin (some ⟨"driver-1", some 100⟩)
        ⟨some 99, 50, false, "", "sig"⟩ = .mileageError :=
  ⟨(handleCheckin_odometer_rule ⟨"driver-1", some 100⟩ 100 100
      ⟨some 100, 50, false, "", "sig"⟩ rfl rfl (by decide)).1 rfl,
    (handleCheckin_odometer_rule ⟨"driver-1", some 100⟩ 100 99
      ⟨some 99, 50, false, "", "sig"⟩ rfl rfl (by decide)).2.1
      (by norm_num)⟩

/-- C8: `getNextServiceInfo` returns `kmUntilService = nextServiceOdometer
- currentOdometer`, `isOverdue ↔ kmUntilService ≤ 0`, days 0 when overdue
and `⌈kmUntilService / 50⌉` otherwise; when the current odometer equals
the next-service odometer it reports overdue with zero distance and zero
days. -/
theorem getNextServiceInfo_spec (v : Vehicle) :
    (getNextServiceInfo v).kmUntilService =
        v.nextServiceOdometer - v.currentOdometer ∧
      ((getNextServiceInfo v).isOverdue = true ↔
        v.nextServiceOdometer - v.currentOdometer ≤ 0) ∧
      ((getNextServiceInfo v).isOverdue = true →
        (getNextServiceInfo v).daysUntilService = 0) ∧
      ((getNextServiceInfo v).isOverdue = false →
        (getNextServiceInfo v).daysUntilService =
          ⌈((v.nextServiceOdometer - v.currentOdometer : Int) : ℚ) /
            50⌉) ∧
      (v.currentOdometer = v.nextServiceOdometer →
        (getNextServiceInfo v).isOverdue = true ∧
          (getNextServiceInfo v).kmUntilService = 0 ∧
          (getNextServiceInfo v).daysUntilService = 0) := by
  unfold getNextServiceInfo
  dsimp only
  refine ⟨rfl, by simp, ?_, ?_, ?_⟩
  · intro h
    rw [if_pos (of_decide_eq_true h)]
  · intro h
    rw [if_neg (of_decide_eq_false h)]
    norm_num
  · intro h
    rw [h]
    simp

/-- A vehicle exactly at its next service odometer, for evaluating C8. -/
def exServiceDueVehicle : Vehicle :=
  { status := .available, currentDriverId := "", currentMileage := 500
    fuelLevel := 50, nextServiceOdometer := 500, currentOdometer := 500 }

/-- A vehicle 10 km short of its next service, for evaluating C8. -/
def exServiceFarVehicle : Vehicle :=
  { status := .available, currentDriverId := "", currentMileage := 9990
    fuelLevel := 50, nextServiceOdometer := 10000
    currentOdometer := 9990 }

/-- C8 witness: at current odometer equal to the next-service odometer the
tracker reports overdue, zero distance and zero days; a non-overdue
vehicle gets the ceiling estimate. -/
theorem getNextServiceInfo_spec_witness :
    ((getNextServiceInfo exServiceDueVehicle).isOverdue = true ∧
        (getNextServiceInfo exServiceDueVehicle).kmUntilService = 0 ∧
        (getNextServiceInfo exServiceDueVehicle).daysUntilService = 0) ∧
      (getNextServiceInfo exServiceFarVehicle).daysUntilService =
        ⌈((10000 - 9990 : Int) : ℚ) / 50⌉ :=
  ⟨(getNextServiceInfo_spec exServiceDueVehicle).2.2.2.2 rfl,
    (getNextServiceInfo_spec exServiceFarVehicle).2.2.2.1 (by decide)⟩

end AssetMgmt
